import Mathlib

/-!
Verification development for the flight physics and stability engine of a
model-rocket design tool.  The definitions below are a shallow embedding of
the TypeScript source (`PhysicsEngine` class and the stability-metrics
computation of the stability-analysis view); JavaScript numbers are modelled
as real numbers, `Math.random()` as an explicit argument, and the simulation
loop as fuel-bounded recursion whose fuel provably never runs out for a
positive time step.
-/

/-- The component type union of the design surface
(`"nosecone" | "bodytube" | "fins" | "engine" | "transition" | "parachute"`). -/
inductive ComponentType where
  | nosecone
  | bodytube
  | fins
  | engine
  | transition
  | parachute
deriving DecidableEq, Repr

/-- `RocketComponent` of the design surface: id, type, name, x, y, width,
height, mass, dragCoefficient, color.  There is no fin-count field. -/
structure RocketComponent where
  id : String
  type : ComponentType
  name : String
  x : ℝ
  y : ℝ
  width : ℝ
  height : ℝ
  mass : ℝ
  dragCoefficient : ℝ
  color : String

/-- One `{ time, thrust }` sample of a motor thrust curve. -/
structure ThrustSample where
  time : ℝ
  thrust : ℝ

/-- `MotorData` catalog record. -/
structure MotorData where
  designation : String
  totalImpulse : ℝ
  burnTime : ℝ
  averageThrust : ℝ
  maxThrust : ℝ
  propellantMass : ℝ
  totalMass : ℝ
  thrustCurve : List ThrustSample
  delay : ℝ

/-- `LaunchConditions` record. -/
structure LaunchConditions where
  altitude : ℝ
  temperature : ℝ
  pressure : ℝ
  humidity : ℝ
  windSpeed : ℝ
  windDirection : ℝ
  launchAngle : ℝ
  launchDirection : ℝ
  rodLength : ℝ

/-- `RocketPhysics` record of derived quantities. -/
structure RocketPhysics where
  totalMass : ℝ
  dryMass : ℝ
  propellantMass : ℝ
  centerOfGravity : ℝ
  centerOfPressure : ℝ
  stabilityMargin : ℝ
  dragCoefficient : ℝ
  referenceArea : ℝ
  length : ℝ
  diameter : ℝ

/-- The `{ x, y, z }` position triple of a flight sample. -/
structure Vec3 where
  x : ℝ
  y : ℝ
  z : ℝ

/-- `FlightDataPoint`: one sample of the trajectory. -/
structure FlightDataPoint where
  time : ℝ
  altitude : ℝ
  velocity : ℝ
  acceleration : ℝ
  mass : ℝ
  thrust : ℝ
  drag : ℝ
  mach : ℝ
  stability : ℝ
  angleOfAttack : ℝ
  verticalVelocity : ℝ
  lateralVelocity : ℝ
  position : Vec3

/-- `private gravity = 9.81`. -/
noncomputable def gravity : ℝ := 9.81

/-- `private airDensitySeaLevel = 1.225`. -/
noncomputable def airDensitySeaLevel : ℝ := 1.225

/-- `private gasConstant = 287`. -/
noncomputable def gasConstant : ℝ := 287

/-- `private temperatureLapseRate = 0.0065`. -/
noncomputable def temperatureLapseRate : ℝ := 0.0065

/-- `PhysicsEngine.calculateAirDensity`.  `Math.pow(base, 5.257)` is the real
power function on its base. -/
noncomputable def calculateAirDensity (altitude temperature : ℝ) : ℝ :=
  let temperatureAtAltitude := temperature - temperatureLapseRate * altitude
  let pressure := 101325 * Real.rpow (1 - 0.0065 * altitude / 288.15) 5.257
  pressure / (gasConstant * (temperatureAtAltitude + 273.15))

/-- `PhysicsEngine.calculateDragForce`. -/
noncomputable def calculateDragForce (velocity airDensity dragCoefficient referenceArea : ℝ) : ℝ :=
  0.5 * airDensity * velocity * velocity * dragCoefficient * referenceArea

/-- `PhysicsEngine.calculateStabilityMargin`; the division by `diameter` is
not guarded in the source (real-number model: division by zero yields 0). -/
noncomputable def calculateStabilityMargin (centerOfGravity centerOfPressure diameter : ℝ) : ℝ :=
  (centerOfPressure - centerOfGravity) / diameter

/-- The per-case `cpContribution` of `PhysicsEngine.calculateCenterOfPressure`
(component types outside the switch leave it 0). -/
noncomputable def peCpContribution (component : RocketComponent) : ℝ :=
  match component.type with
  | ComponentType.nosecone => component.y + 2 / 3 * component.height
  | ComponentType.fins => component.y + component.height / 2
  | ComponentType.bodytube => component.y + component.height / 2
  | _ => 0

/-- The per-case `area` of `PhysicsEngine.calculateCenterOfPressure`
(component types outside the switch leave it 0). -/
noncomputable def peCpArea (component : RocketComponent) : ℝ :=
  match component.type with
  | ComponentType.nosecone => Real.pi * (component.width / 2) ^ 2
  | ComponentType.fins => component.width * component.height
  | ComponentType.bodytube => component.width * component.height * 0.1
  | _ => 0

/-- `PhysicsEngine.calculateCenterOfPressure`: the `forEach` accumulation of
`cpContribution * area` and `area`, then `totalArea > 0 ? ... : 0`. -/
noncomputable def calculateCenterOfPressure (components : List RocketComponent) : ℝ :=
  let totalCpContribution := (components.map fun c => peCpContribution c * peCpArea c).sum
  let totalArea := (components.map peCpArea).sum
  if totalArea > 0 then totalCpContribution / totalArea else 0

/-- `PhysicsEngine.calculateCenterOfGravity`. -/
noncomputable def calculateCenterOfGravity (components : List RocketComponent) : ℝ :=
  let totalMass := (components.map fun c => c.mass).sum
  if totalMass = 0 then 0
  else (components.map fun c => c.mass * (c.y + c.height / 2)).sum / totalMass

/-- `motorData.thrustCurve.find(point => Math.abs(point.time - time) < deltaTime / 2)`:
the first curve sample within half a time step of the current time. -/
noncomputable def findThrust (time deltaTime : ℝ) : List ThrustSample → Option ThrustSample
  | [] => none
  | p :: ps => if |p.time - time| < deltaTime / 2 then some p else findThrust time deltaTime ps

/-- The instantaneous thrust used by `simulateFlightStep`: 0 without a motor
or past `burnTime`, otherwise the nearest-sample lookup on the thrust curve
(0 when no sample lies within `deltaTime / 2`). -/
noncomputable def thrustAt (motorData : Option MotorData) (time deltaTime : ℝ) : ℝ :=
  match motorData with
  | none => 0
  | some m =>
    if time ≤ m.burnTime then
      match findThrust time deltaTime m.thrustCurve with
      | some p => p.thrust
      | none => 0
    else 0

/-- The air density computed by `simulateFlightStep` at the current state. -/
noncomputable def stepAirDensity (s : FlightDataPoint) (launchConditions : LaunchConditions) : ℝ :=
  calculateAirDensity (launchConditions.altitude + s.altitude) launchConditions.temperature

/-- The drag force computed by `simulateFlightStep`: `calculateDragForce`
applied to `Math.abs(velocity)`. -/
noncomputable def stepDragForce (s : FlightDataPoint) (rocketPhysics : RocketPhysics)
    (launchConditions : LaunchConditions) : ℝ :=
  calculateDragForce |s.velocity| (stepAirDensity s launchConditions)
    rocketPhysics.dragCoefficient rocketPhysics.referenceArea

/-- The drag acceleration of `simulateFlightStep`:
`velocity > 0 ? -dragForce / mass : dragForce / mass`. -/
noncomputable def stepDragAcceleration (s : FlightDataPoint) (rocketPhysics : RocketPhysics)
    (launchConditions : LaunchConditions) : ℝ :=
  if s.velocity > 0 then -stepDragForce s rocketPhysics launchConditions / s.mass
  else stepDragForce s rocketPhysics launchConditions / s.mass

/-- `PhysicsEngine.simulateFlightStep`. -/
noncomputable def simulateFlightStep (currentState : FlightDataPoint)
    (rocketPhysics : RocketPhysics) (motorData : Option MotorData)
    (launchConditions : LaunchConditions) (deltaTime : ℝ) : FlightDataPoint :=
  let thrust := thrustAt motorData currentState.time deltaTime
  let dragForce := stepDragForce currentState rocketPhysics launchConditions
  let dragAcceleration := stepDragAcceleration currentState rocketPhysics launchConditions
  let gravityAtAltitude := gravity * (6371000 / (6371000 + currentState.altitude)) ^ 2
  let thrustAcceleration := thrust / currentState.mass
  let totalAcceleration := thrustAcceleration + dragAcceleration - gravityAtAltitude
  let newVelocity := currentState.velocity + totalAcceleration * deltaTime
  let newAltitude := max 0 (currentState.altitude + currentState.velocity * deltaTime
    + 0.5 * totalAcceleration * deltaTime * deltaTime)
  let newMass :=
    match motorData with
    | some m =>
      if currentState.time ≤ m.burnTime then
        currentState.mass - m.propellantMass / m.burnTime * deltaTime
      else currentState.mass
    | none => currentState.mass
  let speedOfSound := Real.sqrt (1.4 * gasConstant
    * (launchConditions.temperature - temperatureLapseRate * currentState.altitude + 273.15))
  let mach := |currentState.velocity| / speedOfSound
  let stability := calculateStabilityMargin rocketPhysics.centerOfGravity
    rocketPhysics.centerOfPressure rocketPhysics.diameter
  { time := currentState.time + deltaTime
    altitude := newAltitude
    velocity := newVelocity
    acceleration := totalAcceleration
    mass := newMass
    thrust := thrust
    drag := dragForce
    mach := mach
    stability := stability
    angleOfAttack := 0
    verticalVelocity := newVelocity
    lateralVelocity := 0
    position := { x := 0, y := newAltitude, z := 0 } }

/-- The initial `currentState` of `runFullSimulation`. -/
noncomputable def initialState (rocketPhysics : RocketPhysics) : FlightDataPoint :=
  { time := 0
    altitude := 0
    velocity := 0
    acceleration := 0
    mass := rocketPhysics.totalMass
    thrust := 0
    drag := 0
    mach := 0
    stability := 0
    angleOfAttack := 0
    verticalVelocity := 0
    lateralVelocity := 0
    position := { x := 0, y := 0, z := 0 } }

/-- The `while` loop of `runFullSimulation`, as fuel-bounded recursion
returning the samples pushed after the current state.  Each loop pass pushes
the stepped state; the landing branch additionally pushes the forced
touchdown copy (`altitude = 0, velocity = 0`) and stops.  The source loop has
no fuel; each pass advances `time` by `timeStep` and the guard requires
`time < maxTime`, so with fuel `⌈maxTime / timeStep⌉₊ + 1` (see `simFuel`)
the zero-fuel branch is unreachable for a positive time step. -/
noncomputable def runSimAux (rocketPhysics : RocketPhysics) (motorData : MotorData)
    (launchConditions : LaunchConditions) (maxTime timeStep : ℝ) :
    ℕ → FlightDataPoint → List FlightDataPoint
  | 0, _ => []
  | fuel + 1, s =>
    if s.time < maxTime ∧ (s.altitude > 0 ∨ s.velocity > 0 ∨ s.time < 1) then
      let s' := simulateFlightStep s rocketPhysics (some motorData) launchConditions timeStep
      if s'.altitude ≤ 0 ∧ |s'.velocity| < 1 ∧ s'.time > 1 then
        [s', { s' with altitude := 0, velocity := 0 }]
      else
        s' :: runSimAux rocketPhysics motorData launchConditions maxTime timeStep fuel s'
    else []

/-- Iteration budget that the source loop can never exhaust when
`timeStep > 0`: the guard `time < maxTime` fails after at most
`⌈maxTime / timeStep⌉₊` passes. -/
noncomputable def simFuel (maxTime timeStep : ℝ) : ℕ := ⌈maxTime / timeStep⌉₊ + 1

/-- `PhysicsEngine.runFullSimulation` (defaults `maxTime = 60`,
`timeStep = 0.01` are passed explicitly here). -/
noncomputable def runFullSimulation (rocketPhysics : RocketPhysics) (motorData : MotorData)
    (launchConditions : LaunchConditions) (maxTime timeStep : ℝ) : List FlightDataPoint :=
  initialState rocketPhysics ::
    runSimAux rocketPhysics motorData launchConditions maxTime timeStep
      (simFuel maxTime timeStep) (initialState rocketPhysics)

/-- The `StabilityMetrics` record of the stability-analysis view. -/
structure StabilityMetrics where
  staticMargin : ℝ
  dynamicStability : ℝ
  centerOfGravity : ℝ
  centerOfPressure : ℝ
  finEffectiveness : ℝ
  recoveryStability : ℝ
  overallRating : ℝ
  recommendations : List String
  warnings : List String

/-- The analysis-phase selector of the stability view. -/
inductive AnalysisPhase where
  | powered
  | coast
  | recovery
deriving DecidableEq, Repr

/-- `Math.max(...)` over a component-derived list; the view only evaluates it
on a non-empty component list (the empty case, JavaScript `-Infinity`, is
unreachable behind the `components.length === 0` early return). -/
noncomputable def listMax : List ℝ → ℝ
  | [] => 0
  | x :: xs => xs.foldl max x

/-- `Math.min(...)` over a component-derived list; same reachability note as
`listMax`. -/
noncomputable def listMin : List ℝ → ℝ
  | [] => 0
  | x :: xs => xs.foldl min x

/-- Per-component mass adjusted for the analysis phase: an engine component
gains half the selected motor propellant while powered and nothing during
coast or recovery. -/
noncomputable def phaseMass (selectedMotor : Option MotorData) (analysisPhase : AnalysisPhase)
    (comp : RocketComponent) : ℝ :=
  match comp.type, selectedMotor with
  | ComponentType.engine, some m =>
    match analysisPhase with
    | AnalysisPhase.powered => comp.mass + m.propellantMass / 2
    | AnalysisPhase.coast => comp.mass
    | AnalysisPhase.recovery => comp.mass
  | _, _ => comp.mass

/-- The per-case `normalForceDerivative` of the stability view CP loop.  The
fins case multiplies by the literal 4 (`// Assuming 4 fins`); the component
record carries no fin count. -/
noncomputable def cpWeight (comp : RocketComponent) : ℝ :=
  match comp.type with
  | ComponentType.nosecone => 2 * Real.pi * (comp.width / 2) ^ 2
  | ComponentType.bodytube => 0.1 * comp.width * comp.height
  | ComponentType.fins =>
    let finArea := comp.width * comp.height
    let aspect := comp.height ^ 2 / finArea
    (1 + 1 / aspect) * finArea * 4
  | ComponentType.transition => Real.pi * comp.width * comp.height * 0.5
  | _ => 0

/-- The per-case `contribution` of the stability view CP loop. -/
noncomputable def cpPosition (comp : RocketComponent) : ℝ :=
  match comp.type with
  | ComponentType.nosecone => comp.y + 2 / 3 * comp.height
  | ComponentType.bodytube => comp.y + comp.height / 2
  | ComponentType.fins => comp.y + comp.height / 3
  | ComponentType.transition => comp.y + comp.height / 2
  | _ => 0

/-- The stability view center of pressure:
`cpDenominator > 0 ? cpNumerator / cpDenominator : 0`. -/
noncomputable def cpOf (components : List RocketComponent) : ℝ :=
  let cpNumerator := (components.map fun c => cpPosition c * cpWeight c).sum
  let cpDenominator := (components.map cpWeight).sum
  if cpDenominator > 0 then cpNumerator / cpDenominator else 0

/-- The stability view `rocketLength`:
`Math.max(...map(c => c.y + c.height)) - Math.min(...map(c => c.y))`. -/
noncomputable def rocketLengthOf (components : List RocketComponent) : ℝ :=
  listMax (components.map fun c => c.y + c.height) - listMin (components.map fun c => c.y)

/-- The stability view center of gravity with phase-adjusted masses
(`totalMass > 0 ? moment / totalMass : 0`). -/
noncomputable def cgOf (components : List RocketComponent) (selectedMotor : Option MotorData)
    (analysisPhase : AnalysisPhase) : ℝ :=
  let totalMass := (components.map (phaseMass selectedMotor analysisPhase)).sum
  if totalMass > 0 then
    (components.map fun c =>
      (c.y + c.height / 2) * phaseMass selectedMotor analysisPhase c).sum / totalMass
  else 0

/-- The stability view `finEffectiveness` (real-number model; the division by
`rocketLength` is unguarded in the source, see `finEffectivenessChecked` for
the JavaScript non-finite behaviour at `rocketLength = 0`). -/
noncomputable def finEffectivenessOf (components : List RocketComponent) : ℝ :=
  let fins := components.filter fun c => c.type == ComponentType.fins
  if fins.length > 0 then
    min 100 ((fins.length : ℝ) * 25
      + (match fins.head? with | some f => f.height | none => 0) / rocketLengthOf components * 50)
  else 0

/-- `calculateStabilityMetrics` of the stability view.  `rand` stands for the
value drawn from `Math.random()` in the recovery-stability formula, made an
explicit argument; `none` is the `components.length === 0` early return that
leaves the metrics unset. -/
noncomputable def calculateStabilityMetrics (components : List RocketComponent)
    (selectedMotor : Option MotorData) (analysisPhase : AnalysisPhase) (rand : ℝ) :
    Option StabilityMetrics :=
  if components.length = 0 then none
  else
    let rocketDiameter := listMax (components.map fun c => c.width)
    let cg := cgOf components selectedMotor analysisPhase
    let cp := cpOf components
    let staticMargin := (cp - cg) / (if rocketDiameter = 0 then 1 else rocketDiameter)
    let fins := components.filter fun c => c.type == ComponentType.fins
    let finEffectiveness := finEffectivenessOf components
    let dynamicStability := min 100 (staticMargin * 20 + finEffectiveness * 0.3)
    let hasRecovery := components.any fun c => c.type == ComponentType.parachute
    let recoveryStability := if hasRecovery then 85 + rand * 10 else 20
    let overallRating :=
      if staticMargin > 1 ∧ staticMargin < 3 then
        min 100 (staticMargin * 30 + finEffectiveness * 0.5 + (if hasRecovery then 20 else 0))
      else max 0 (50 - |staticMargin - 2| * 25)
    let marginWarnings :=
      if staticMargin < 1 then ["Static margin too low - rocket may be unstable"]
      else if staticMargin > 3 then ["Static margin too high - rocket may be overstable"]
      else []
    let marginRecs :=
      if staticMargin < 1 then ["Move center of gravity forward or add more fin area"]
      else if staticMargin > 3 then ["Reduce fin size or move weight aft"]
      else []
    let finWarnings :=
      if fins.length = 0 then ["No fins detected - rocket will be unstable"]
      else if fins.length < 3 then ["Insufficient fin count for optimal stability"]
      else []
    let finRecs :=
      if fins.length = 0 then ["Add fin set for stability"]
      else if fins.length < 3 then ["Use at least 3 fins for best stability"]
      else []
    let recoveryWarnings := if hasRecovery then [] else ["No recovery system detected"]
    let recoveryRecs := if hasRecovery then [] else ["Add parachute or streamer for safe recovery"]
    let engineWarnings :=
      if (components.filter fun c => c.type == ComponentType.engine).length = 0 then
        ["No propulsion system detected"]
      else []
    let engineRecs :=
      if (components.filter fun c => c.type == ComponentType.engine).length = 0 then
        ["Add a motor for powered flight"]
      else []
    let praise :=
      if staticMargin ≥ 1 ∧ staticMargin ≤ 3 ∧ fins.length ≥ 3 ∧ hasRecovery then
        ["Excellent stability configuration!"]
      else []
    some
      { staticMargin := staticMargin
        dynamicStability := dynamicStability
        centerOfGravity := cg
        centerOfPressure := cp
        finEffectiveness := finEffectiveness
        recoveryStability := recoveryStability
        overallRating := overallRating
        recommendations := marginRecs ++ finRecs ++ recoveryRecs ++ engineRecs ++ praise
        warnings := marginWarnings ++ finWarnings ++ recoveryWarnings ++ engineWarnings }

/-- Modelled from the spec: the rocket's geometric midpoint, the middle of the
axial extent spanned by the components. -/
noncomputable def geometricMidpoint (components : List RocketComponent) : ℝ :=
  (listMin (components.map fun c => c.y)
    + listMax (components.map fun c => c.y + c.height)) / 2

/-- Modelled from the spec: the per-type center-of-pressure weight table, with
the fin count `n` as a parameter because the source component record has no
fin-count field.  Fins weigh `(1 + 1/aspectRatio) * finArea * n` with
`aspectRatio = length^2 / finArea`; the transition weight is the source's
frustum-planform proportionality `pi * width * length * 0.5`. -/
noncomputable def specCpWeight (n : ℕ) (comp : RocketComponent) : ℝ :=
  match comp.type with
  | ComponentType.nosecone => 2 * Real.pi * (comp.width / 2) ^ 2
  | ComponentType.bodytube => 0.1 * comp.width * comp.height
  | ComponentType.fins =>
    let finArea := comp.width * comp.height
    (1 + 1 / (comp.height ^ 2 / finArea)) * finArea * n
  | ComponentType.transition => Real.pi * comp.width * comp.height * 0.5
  | _ => 0

/-- Modelled from the spec: the per-type center-of-pressure position table
(nosecone at 2/3 length, fins at 1/3 length, bodytube and transition at
midlength). -/
noncomputable def specCpPosition (comp : RocketComponent) : ℝ :=
  match comp.type with
  | ComponentType.nosecone => comp.y + 2 / 3 * comp.height
  | ComponentType.bodytube => comp.y + comp.height / 2
  | ComponentType.fins => comp.y + comp.height / 3
  | ComponentType.transition => comp.y + comp.height / 2
  | _ => 0

/-- Modelled from the spec: center of pressure as the weight-averaged table
position, defaulting to the geometric midpoint when no component produces a
nonzero weight. -/
noncomputable def specCenterOfPressure (n : ℕ) (components : List RocketComponent) : ℝ :=
  let den := (components.map (specCpWeight n)).sum
  if den > 0 then (components.map fun c => specCpPosition c * specCpWeight n c).sum / den
  else geometricMidpoint components

/-- JavaScript division with the finiteness made explicit: dividing by zero
yields `Infinity`, `-Infinity` or `NaN`, never a finite number, so it is
modelled as `none`; any other division is finite. -/
noncomputable def jsDiv (a b : ℝ) : Option ℝ :=
  if b = 0 then none else some (a / b)

/-- `PhysicsEngine.calculateStabilityMargin` with JavaScript division
semantics: the source divides `(centerOfPressure - centerOfGravity)` by
`diameter` with no guard. -/
noncomputable def calculateStabilityMarginChecked (centerOfGravity centerOfPressure diameter : ℝ) :
    Option ℝ :=
  jsDiv (centerOfPressure - centerOfGravity) diameter

/-- The stability view `staticMargin` with JavaScript division semantics: the
denominator is `rocketDiameter || 1`, so a zero diameter falls back to 1. -/
noncomputable def staticMarginChecked (cg cp rocketDiameter : ℝ) : Option ℝ :=
  jsDiv (cp - cg) (if rocketDiameter = 0 then 1 else rocketDiameter)

/-- The stability view `finEffectiveness` with JavaScript division semantics.
When fins are present, `(fins[0]?.height || 0) / rocketLength` is unguarded.
`rocketLength` always bounds the first fin height from above
(`max(y + height) - min(y) ≥ height` for that fin), so a zero `rocketLength`
forces a non-positive numerator and the JavaScript value is `0/0 = NaN` or
`negative/0 = -Infinity`; `Math.min(100, x)` keeps either non-finite, hence
`none`. -/
noncomputable def finEffectivenessChecked (components : List RocketComponent) : Option ℝ :=
  let fins := components.filter fun c => c.type == ComponentType.fins
  if fins.length > 0 then
    match jsDiv (match fins.head? with | some f => f.height | none => 0)
        (rocketLengthOf components) with
    | none => none
    | some q => some (min 100 ((fins.length : ℝ) * 25 + q * 50))
  else some 0

/-- Sea-level launch conditions at 15 degrees with no wind, used by the
concrete runs below. -/
noncomputable def seaLevel : LaunchConditions :=
  { altitude := 0, temperature := 15, pressure := 101325, humidity := 0, windSpeed := 0,
    windDirection := 0, launchAngle := 90, launchDirection := 0, rodLength := 1 }

/-- Drag-free 1 kg rocket used by the ballistic concrete run. -/
noncomputable def ballisticPhysics : RocketPhysics :=
  { totalMass := 1, dryMass := 1, propellantMass := 0, centerOfGravity := 0,
    centerOfPressure := 0, stabilityMargin := 0, dragCoefficient := 0, referenceArea := 1,
    length := 1, diameter := 1 }

/-- A motor with an empty thrust curve and no propellant: every lookup misses,
so the rocket never leaves the pad. -/
noncomputable def emptyMotor : MotorData :=
  { designation := "X0", totalImpulse := 0, burnTime := 1, averageThrust := 0, maxThrust := 0,
    propellantMass := 0, totalMass := 0.01, thrustCurve := [], delay := 0 }

/-- Drag-free rocket of 1 kg total and 0.8 kg dry mass, consistent with
`burnMotor` carrying 0.2 kg of propellant. -/
noncomputable def burnPhysics : RocketPhysics :=
  { totalMass := 1, dryMass := 0.8, propellantMass := 0.2, centerOfGravity := 0,
    centerOfPressure := 0, stabilityMargin := 0, dragCoefficient := 0, referenceArea := 1,
    length := 1, diameter := 1 }

/-- Motor burning 0.2 kg over 1 s; the curve conforms to the Motor shape
(times strictly increasing from 0, last sample at `burnTime` with thrust 0). -/
noncomputable def burnMotor : MotorData :=
  { designation := "B1", totalImpulse := 10, burnTime := 1, averageThrust := 10,
    maxThrust := 19.81, propellantMass := 0.2, totalMass := 0.3,
    thrustCurve := [{ time := 0, thrust := 19.81 }, { time := 1, thrust := 0 }], delay := 0 }

/-- A lone parachute component (recovery present, so the recovery-stability
formula draws from `Math.random()`). -/
noncomputable def chuteOnly : RocketComponent :=
  { id := "c1", type := ComponentType.parachute, name := "chute", x := 0, y := 0, width := 1,
    height := 2, mass := 0.1, dragCoefficient := 1.5, color := "red" }

/-- A lone engine component: it matches no case of the center-of-pressure
switch, so the aerodynamic weight sum is zero while the geometric midpoint is
125. -/
noncomputable def engineOnly : RocketComponent :=
  { id := "e1", type := ComponentType.engine, name := "engine", x := 0, y := 100, width := 10,
    height := 50, mass := 1, dragCoefficient := 0.3, color := "gray" }

/-- Body tube for the center-of-pressure table comparison. -/
noncomputable def tubeComp : RocketComponent :=
  { id := "t1", type := ComponentType.bodytube, name := "tube", x := 0, y := 0, width := 1,
    height := 10, mass := 0.2, dragCoefficient := 0.3, color := "white" }

/-- Fin set for the center-of-pressure table comparison; on the design
surface a fin set drawn with 3 fins still contributes with the hardcoded 4. -/
noncomputable def finsComp : RocketComponent :=
  { id := "f1", type := ComponentType.fins, name := "fins", x := 0, y := 10, width := 2,
    height := 2, mass := 0.05, dragCoefficient := 0.02, color := "black" }

/-- A zero-height fin set: `rocketLength = 0` and the fin-effectiveness
division is `0 / 0`. -/
noncomputable def zeroFins : RocketComponent :=
  { id := "f0", type := ComponentType.fins, name := "fins", x := 0, y := 0, width := 5,
    height := 0, mass := 0.05, dragCoefficient := 0.02, color := "black" }

/-- A Motor-shape-conforming curve whose second-to-last sample still thrusts:
times strictly increase from 0 and the last sample is `(burnTime, 0)`. -/
noncomputable def sparseMotor : MotorData :=
  { designation := "S5", totalImpulse := 2.5, burnTime := 1, averageThrust := 2.5,
    maxThrust := 5, propellantMass := 0.002, totalMass := 0.01,
    thrustCurve := [{ time := 0, thrust := 5 }, { time := 1, thrust := 0 }], delay := 3 }

/-- A state moving upward at 10 m/s on the pad with 1 kg of mass. -/
noncomputable def fastState : FlightDataPoint :=
  { time := 0, altitude := 0, velocity := 10, acceleration := 0, mass := 1, thrust := 0,
    drag := 0, mach := 0, stability := 0, angleOfAttack := 0, verticalVelocity := 10,
    lateralVelocity := 0, position := { x := 0, y := 0, z := 0 } }

/-- Unit drag coefficient and reference area. -/
noncomputable def dragPhysics : RocketPhysics :=
  { totalMass := 1, dryMass := 1, propellantMass := 0, centerOfGravity := 0,
    centerOfPressure := 0, stabilityMargin := 0, dragCoefficient := 1, referenceArea := 1,
    length := 1, diameter := 1 }

/-- Launch conditions with a ground temperature below absolute zero: the
core accepts them unvalidated and the ideal-gas relation then returns a
negative air density. -/
noncomputable def coldConditions : LaunchConditions :=
  { altitude := 0, temperature := -300, pressure := 101325, humidity := 0, windSpeed := 0,
    windDirection := 0, launchAngle := 90, launchDirection := 0, rodLength := 1 }

/-- The stepped state after one second of the ballistic run: free fall from
rest leaves the pad altitude clamped at 0 with velocity -9.81 m/s. -/
noncomputable def ballisticS1 : FlightDataPoint :=
  { time := 1, altitude := 0, velocity := -9.81, acceleration := -9.81, mass := 1,
    thrust := 0, drag := 0, mach := 0, stability := 0, angleOfAttack := 0,
    verticalVelocity := -9.81, lateralVelocity := 0, position := ⟨0, 0, 0⟩ }

/-- The stepped state after one second of the powered run: thrust 19.81 N on
1 kg gives net acceleration 10, and the burn removes 0.2 kg of mass. -/
noncomputable def burnS1 : FlightDataPoint :=
  { time := 1, altitude := 5, velocity := 10, acceleration := 10, mass := 0.8, thrust := 19.81,
    drag := 0, mach := 0, stability := 0, angleOfAttack := 0, verticalVelocity := 10,
    lateralVelocity := 0, position := ⟨0, 5, 0⟩ }

/-- Consecutive sample times advance by exactly the time step, except that
the final sample may instead repeat the previous time while showing the
forced touchdown values (altitude 0, velocity 0). -/
def timeChain (dt : ℝ) : List FlightDataPoint → Prop
  | [] => True
  | [_] => True
  | a :: b :: rest =>
    (b.time = a.time + dt ∨ (rest = [] ∧ b.time = a.time ∧ b.altitude = 0 ∧ b.velocity = 0))
      ∧ timeChain dt (b :: rest)

/-- The sample time advances by exactly `deltaTime` in every flight step. -/
lemma simulateFlightStep_time (s : FlightDataPoint) (rp : RocketPhysics) (md : Option MotorData)
    (lc : LaunchConditions) (dt : ℝ) : (simulateFlightStep s rp md lc dt).time = s.time + dt := rfl

/-- The stepped altitude is clamped to be nonnegative (`Math.max(0, ...)`). -/
lemma simulateFlightStep_altitude_nonneg (s : FlightDataPoint) (rp : RocketPhysics)
    (md : Option MotorData) (lc : LaunchConditions) (dt : ℝ) :
    0 ≤ (simulateFlightStep s rp md lc dt).altitude := le_max_left _ _

/-- One-second free-fall step of the ballistic run, evaluated. -/
lemma ballistic_step1 :
    simulateFlightStep (initialState ballisticPhysics) ballisticPhysics (some emptyMotor) seaLevel 1
      = ballisticS1 := by
  simp only [simulateFlightStep, thrustAt, findThrust, stepDragAcceleration, stepDragForce,
    stepAirDensity, calculateAirDensity, calculateDragForce, calculateStabilityMargin,
    initialState, ballisticPhysics, emptyMotor, seaLevel, gravity, gasConstant,
    temperatureLapseRate, ballisticS1]
  norm_num [max_def]

/-- Loop pass that neither lands nor exits: the stepped state is pushed and
the loop continues from it. -/
lemma runSimAux_cont (rp : RocketPhysics) (md : MotorData) (lc : LaunchConditions)
    (mt dt : ℝ) (f : ℕ) (s : FlightDataPoint)
    (hc : s.time < mt ∧ (s.altitude > 0 ∨ s.velocity > 0 ∨ s.time < 1))
    (hl : ¬((simulateFlightStep s rp (some md) lc dt).altitude ≤ 0 ∧
        |(simulateFlightStep s rp (some md) lc dt).velocity| < 1 ∧
        (simulateFlightStep s rp (some md) lc dt).time > 1)) :
    runSimAux rp md lc mt dt (f + 1) s
      = simulateFlightStep s rp (some md) lc dt
        :: runSimAux rp md lc mt dt f (simulateFlightStep s rp (some md) lc dt) := by
  simp only [runSimAux]
  rw [if_pos hc, if_neg hl]

/-- Loop pass that lands: the stepped state and the forced touchdown copy are
pushed and the loop stops. -/
lemma runSimAux_break (rp : RocketPhysics) (md : MotorData) (lc : LaunchConditions)
    (mt dt : ℝ) (f : ℕ) (s : FlightDataPoint)
    (hc : s.time < mt ∧ (s.altitude > 0 ∨ s.velocity > 0 ∨ s.time < 1))
    (hl : (simulateFlightStep s rp (some md) lc dt).altitude ≤ 0 ∧
        |(simulateFlightStep s rp (some md) lc dt).velocity| < 1 ∧
        (simulateFlightStep s rp (some md) lc dt).time > 1) :
    runSimAux rp md lc mt dt (f + 1) s
      = [simulateFlightStep s rp (some md) lc dt,
         { simulateFlightStep s rp (some md) lc dt with altitude := 0, velocity := 0 }] := by
  simp only [runSimAux]
  rw [if_pos hc, if_pos hl]

/-- Loop guard failure: no further sample is pushed. -/
lemma runSimAux_exit (rp : RocketPhysics) (md : MotorData) (lc : LaunchConditions)
    (mt dt : ℝ) (f : ℕ) (s : FlightDataPoint)
    (hc : ¬(s.time < mt ∧ (s.altitude > 0 ∨ s.velocity > 0 ∨ s.time < 1))) :
    runSimAux rp md lc mt dt f s = [] := by
  cases f with
  | zero => simp [runSimAux]
  | succ f =>
    simp only [runSimAux]
    rw [if_neg hc]

/-- The ballistic run evaluated in full: one free-fall step brings the state
to altitude 0 with velocity -9.81, and the guard then fails with no landing
branch taken, so the run is exactly these two samples. -/
lemma ballistic_run :
    runFullSimulation ballisticPhysics emptyMotor seaLevel 2 1
      = [initialState ballisticPhysics, ballisticS1] := by
  have hstep : simulateFlightStep (initialState ballisticPhysics) ballisticPhysics
      (some emptyMotor) seaLevel 1 = ballisticS1 := by
    rw [ballistic_step1]
  have hc0 : (initialState ballisticPhysics).time < 2 ∧
      ((initialState ballisticPhysics).altitude > 0 ∨ (initialState ballisticPhysics).velocity > 0
        ∨ (initialState ballisticPhysics).time < 1) := by
    norm_num [initialState, ballisticPhysics]
  have hl1 : ¬((simulateFlightStep (initialState ballisticPhysics) ballisticPhysics
        (some emptyMotor) seaLevel 1).altitude ≤ 0 ∧
      |(simulateFlightStep (initialState ballisticPhysics) ballisticPhysics
        (some emptyMotor) seaLevel 1).velocity| < 1 ∧
      (simulateFlightStep (initialState ballisticPhysics) ballisticPhysics
        (some emptyMotor) seaLevel 1).time > 1) := by
    rw [hstep]
    norm_num [ballisticS1, abs_of_nonpos]
  have hc1 : ¬(ballisticS1.time < 2 ∧ (ballisticS1.altitude > 0 ∨ ballisticS1.velocity > 0
      ∨ ballisticS1.time < 1)) := by
    norm_num [ballisticS1]
  rw [runFullSimulation, show simFuel 2 1 = 2 + 1 from by norm_num [simFuel],
    runSimAux_cont _ _ _ _ _ _ _ hc0 hl1, hstep,
    runSimAux_exit _ _ _ _ _ _ _ hc1]

/-- Stepping the time forward by one `dt` lowers the remaining iteration
budget `⌈(maxTime - time) / dt⌉₊` by at least one while the guard holds. -/
lemma ceil_shift (mt dt t : ℝ) (hdt : 0 < dt) (hmt : t < mt) :
    ⌈(mt - (t + dt)) / dt⌉₊ + 1 ≤ ⌈(mt - t) / dt⌉₊ := by
  have hx : (0 : ℝ) < (mt - t) / dt := div_pos (by linarith) hdt
  have h1 : 1 ≤ ⌈(mt - t) / dt⌉₊ := Nat.one_le_ceil_iff.mpr hx
  have heq : (mt - (t + dt)) / dt = (mt - t) / dt - 1 := by
    field_simp
    ring
  rw [heq]
  have h2 : ⌈(mt - t) / dt - 1⌉₊ ≤ ⌈(mt - t) / dt⌉₊ - 1 := by
    rw [Nat.ceil_le, Nat.cast_sub h1]
    have := Nat.le_ceil ((mt - t) / dt)
    push_cast
    linarith
  omega

/-- With enough fuel for the remaining time budget, the last sample of the
loop output is either the forced touchdown sample, a ground exit with
nonpositive velocity after 1 s, or a timeout at `maxTime`. -/
lemma runSimAux_getLast (rp : RocketPhysics) (md : MotorData) (lc : LaunchConditions)
    (mt dt : ℝ) (hdt : 0 < dt) :
    ∀ (f : ℕ) (s : FlightDataPoint), 0 ≤ s.altitude → ⌈(mt - s.time) / dt⌉₊ < f →
      ∀ x, (s :: runSimAux rp md lc mt dt f s).getLast? = some x →
        (x.altitude = 0 ∧ x.velocity = 0)
          ∨ (x.altitude = 0 ∧ x.velocity ≤ 0 ∧ 1 ≤ x.time)
          ∨ mt ≤ x.time := by
  intro f
  induction f with
  | zero => intro s _ hf; exact absurd hf (Nat.not_lt_zero _)
  | succ f ih =>
    intro s ha hf x hx
    by_cases hc : s.time < mt ∧ (s.altitude > 0 ∨ s.velocity > 0 ∨ s.time < 1)
    · by_cases hl : (simulateFlightStep s rp (some md) lc dt).altitude ≤ 0 ∧
          |(simulateFlightStep s rp (some md) lc dt).velocity| < 1 ∧
          (simulateFlightStep s rp (some md) lc dt).time > 1
      · rw [runSimAux_break rp md lc mt dt f s hc hl] at hx
        simp only [List.getLast?_cons_cons, List.getLast?_singleton, Option.some.injEq] at hx
        subst hx
        exact Or.inl ⟨rfl, rfl⟩
      · rw [runSimAux_cont rp md lc mt dt f s hc hl] at hx
        rw [List.getLast?_cons_cons] at hx
        refine ih (simulateFlightStep s rp (some md) lc dt)
          (simulateFlightStep_altitude_nonneg _ _ _ _ _) ?_ x hx
        rw [simulateFlightStep_time]
        have := ceil_shift mt dt s.time hdt hc.1
        omega
    · rw [runSimAux_exit rp md lc mt dt (f + 1) s hc] at hx
      simp only [List.getLast?_singleton, Option.some.injEq] at hx
      subst hx
      push_neg at hc
      by_cases hmt : mt ≤ s.time
      · exact Or.inr (Or.inr hmt)
      · have h3 := hc (lt_of_not_le hmt)
        push_neg at h3
        exact Or.inr (Or.inl ⟨le_antisymm h3.1 ha, h3.2.1, h3.2.2⟩)

/-- The loop output length is bounded by the remaining iteration budget plus
one more sample for the forced touchdown copy, for any fuel. -/
lemma runSimAux_length_le (rp : RocketPhysics) (md : MotorData) (lc : LaunchConditions)
    (mt dt : ℝ) (hdt : 0 < dt) :
    ∀ (f : ℕ) (s : FlightDataPoint),
      (runSimAux rp md lc mt dt f s).length ≤ ⌈(mt - s.time) / dt⌉₊ + 1 := by
  intro f
  induction f with
  | zero => intro s; simp [runSimAux]
  | succ f ih =>
    intro s
    by_cases hc : s.time < mt ∧ (s.altitude > 0 ∨ s.velocity > 0 ∨ s.time < 1)
    · have h1 : 1 ≤ ⌈(mt - s.time) / dt⌉₊ :=
        Nat.one_le_ceil_iff.mpr (div_pos (by linarith [hc.1]) hdt)
      by_cases hl : (simulateFlightStep s rp (some md) lc dt).altitude ≤ 0 ∧
          |(simulateFlightStep s rp (some md) lc dt).velocity| < 1 ∧
          (simulateFlightStep s rp (some md) lc dt).time > 1
      · rw [runSimAux_break rp md lc mt dt f s hc hl]
        simp only [List.length_cons, List.length_nil]
        omega
      · rw [runSimAux_cont rp md lc mt dt f s hc hl, List.length_cons]
        have h2 := ih (simulateFlightStep s rp (some md) lc dt)
        rw [simulateFlightStep_time] at h2
        have h3 := ceil_shift mt dt s.time hdt hc.1
        omega
    · rw [runSimAux_exit rp md lc mt dt (f + 1) s hc]
      simp

/-- The loop output satisfies the time-chain shape for any fuel: each pushed
sample advances time by exactly `dt`, except the forced touchdown copy, which
repeats the time of the sample it copies and ends the list. -/
lemma runSimAux_timeChain (rp : RocketPhysics) (md : MotorData) (lc : LaunchConditions)
    (mt dt : ℝ) :
    ∀ (f : ℕ) (s : FlightDataPoint), timeChain dt (s :: runSimAux rp md lc mt dt f s) := by
  intro f
  induction f with
  | zero => intro s; simp [runSimAux, timeChain]
  | succ f ih =>
    intro s
    by_cases hc : s.time < mt ∧ (s.altitude > 0 ∨ s.velocity > 0 ∨ s.time < 1)
    · by_cases hl : (simulateFlightStep s rp (some md) lc dt).altitude ≤ 0 ∧
          |(simulateFlightStep s rp (some md) lc dt).velocity| < 1 ∧
          (simulateFlightStep s rp (some md) lc dt).time > 1
      · rw [runSimAux_break rp md lc mt dt f s hc hl]
        simp only [timeChain]
        exact ⟨Or.inl (simulateFlightStep_time _ _ _ _ _), by simp, trivial⟩
      · rw [runSimAux_cont rp md lc mt dt f s hc hl]
        simp only [timeChain]
        exact ⟨Or.inl (simulateFlightStep_time _ _ _ _ _), ih _⟩
    · rw [runSimAux_exit rp md lc mt dt (f + 1) s hc]
      simp [timeChain]

/-- A time chain with positive step has pointwise non-decreasing times. -/
lemma timeChain_le (dt : ℝ) (hdt : 0 < dt) :
    ∀ (l : List FlightDataPoint), timeChain dt l →
      ∀ i, (h : i + 1 < l.length) → l[i].time ≤ l[i + 1].time := by
  intro l
  induction l with
  | nil => intro _ i h; simp at h
  | cons a t ih =>
    cases t with
    | nil =>
      intro _ i h
      simp only [List.length_singleton] at h
      exact absurd h (by omega)
    | cons b rest =>
      intro hch i
      simp only [timeChain] at hch
      match i with
      | 0 =>
        intro h
        simp only [List.getElem_cons_zero, List.getElem_cons_succ]
        rcases hch.1 with h1 | h2
        · rw [h1]; linarith
        · rw [h2.2.1]
      | (j + 1) =>
        intro h
        simp only [List.getElem_cons_succ]
        exact ih hch.2 j (by simpa using h)

/-- One-second powered step of the burn run, evaluated. -/
lemma burn_step1 :
    simulateFlightStep (initialState burnPhysics) burnPhysics (some burnMotor) seaLevel 1
      = burnS1 := by
  simp only [simulateFlightStep, thrustAt, findThrust, stepDragAcceleration, stepDragForce,
    stepAirDensity, calculateAirDensity, calculateDragForce, calculateStabilityMargin,
    initialState, burnPhysics, burnMotor, seaLevel, gravity, gasConstant, temperatureLapseRate,
    burnS1]
  norm_num [max_def]

/-- The burn run unfolded through its first two loop passes: both steps start
at a time within the burn (0 and 1 against burn time 1), so both deplete
mass. -/
lemma burn_run_start :
    runFullSimulation burnPhysics burnMotor seaLevel 3 1
      = initialState burnPhysics :: burnS1
        :: simulateFlightStep burnS1 burnPhysics (some burnMotor) seaLevel 1
        :: runSimAux burnPhysics burnMotor seaLevel 3 1 2
            (simulateFlightStep burnS1 burnPhysics (some burnMotor) seaLevel 1) := by
  have hc0 : (initialState burnPhysics).time < 3 ∧
      ((initialState burnPhysics).altitude > 0 ∨ (initialState burnPhysics).velocity > 0
        ∨ (initialState burnPhysics).time < 1) := by
    norm_num [initialState, burnPhysics]
  have hl1 : ¬((simulateFlightStep (initialState burnPhysics) burnPhysics
        (some burnMotor) seaLevel 1).altitude ≤ 0 ∧
      |(simulateFlightStep (initialState burnPhysics) burnPhysics
        (some burnMotor) seaLevel 1).velocity| < 1 ∧
      (simulateFlightStep (initialState burnPhysics) burnPhysics
        (some burnMotor) seaLevel 1).time > 1) := by
    rw [burn_step1]
    norm_num [burnS1]
  have hc1 : burnS1.time < 3 ∧ (burnS1.altitude > 0 ∨ burnS1.velocity > 0 ∨ burnS1.time < 1) := by
    norm_num [burnS1]
  have halt2 : 0 < (simulateFlightStep burnS1 burnPhysics (some burnMotor) seaLevel 1).altitude := by
    simp only [simulateFlightStep, thrustAt, findThrust, stepDragAcceleration, stepDragForce,
      stepAirDensity, calculateAirDensity, calculateDragForce, burnS1, burnPhysics, burnMotor,
      seaLevel, gravity, gasConstant, temperatureLapseRate]
    norm_num [lt_max_iff]
  have hl2 : ¬((simulateFlightStep burnS1 burnPhysics (some burnMotor) seaLevel 1).altitude ≤ 0 ∧
      |(simulateFlightStep burnS1 burnPhysics (some burnMotor) seaLevel 1).velocity| < 1 ∧
      (simulateFlightStep burnS1 burnPhysics (some burnMotor) seaLevel 1).time > 1) :=
    fun h => absurd h.1 (not_le.mpr halt2)
  rw [runFullSimulation, show simFuel 3 1 = 3 + 1 from by norm_num [simFuel],
    runSimAux_cont _ _ _ _ _ _ _ hc0 hl1, burn_step1,
    show (3 : ℕ) = 2 + 1 from rfl,
    runSimAux_cont _ _ _ _ _ _ _ hc1 hl2]

/-- C1: the stability evaluator is not deterministic on identical inputs —
with a parachute present, `recoveryStability` is `85 + Math.random() * 10`,
so two calls that differ only in the random draw return different metrics
(85 versus 90 here) for the identical component list, motor and phase. -/
theorem c1_recoveryStability_random :
    (calculateStabilityMetrics [chuteOnly] none AnalysisPhase.powered 0).map
      (fun m => m.recoveryStability) = some 85 ∧
    (calculateStabilityMetrics [chuteOnly] none AnalysisPhase.powered (1 / 2)).map
      (fun m => m.recoveryStability) = some 90 ∧
    (85 : ℝ) ≠ 90 := by
  refine ⟨by norm_num [calculateStabilityMetrics, chuteOnly],
    by norm_num [calculateStabilityMetrics, chuteOnly], by norm_num⟩

/-- C4 counterexample: on a single engine component (aerodynamic weight sum
zero) the center-of-pressure computation returns 0, not the geometric
midpoint 125 claimed by the spec. -/
theorem c4_zero_weight_cx :
    calculateCenterOfPressure [engineOnly] = 0 ∧
    geometricMidpoint [engineOnly] = 125 ∧ ((0 : ℝ) ≠ 125) := by
  refine ⟨?_, ?_, by norm_num⟩
  · norm_num [calculateCenterOfPressure, peCpArea, peCpContribution, engineOnly]
  · norm_num [geometricMidpoint, listMin, listMax, engineOnly]

/-- C4 (amended): when the aerodynamic weight sum over all components is
zero, both center-of-pressure computations (the physics engine's and the
stability view's) return the fallback 0, not the geometric midpoint. -/
theorem c4_zero_weight_fallback (components : List RocketComponent)
    (h1 : (components.map peCpArea).sum = 0)
    (h2 : (components.map cpWeight).sum = 0) :
    calculateCenterOfPressure components = 0 ∧ cpOf components = 0 := by
  constructor
  · simp [calculateCenterOfPressure, h1]
  · simp [cpOf, h2]

/-- C4 witness: the amended fallback theorem applied to the engine-only
rocket, whose weight sums are zero. -/
theorem c4_zero_weight_fallback_witness :
    (([engineOnly].map peCpArea).sum = 0 ∧ ([engineOnly].map cpWeight).sum = 0) ∧
    calculateCenterOfPressure [engineOnly] = 0 ∧ cpOf [engineOnly] = 0 := by
  have h1 : ([engineOnly].map peCpArea).sum = 0 := by norm_num [peCpArea, engineOnly]
  have h2 : ([engineOnly].map cpWeight).sum = 0 := by norm_num [cpWeight, engineOnly]
  exact ⟨⟨h1, h2⟩, c4_zero_weight_fallback [engineOnly] h1 h2⟩

/-- C5 counterexample: for a body tube plus a 3-fin fin set, the stability
view's center of pressure (1039/99, fin weight hardcoded to 4 fins) differs
from the spec table evaluated with `finCount = 3` (261/25). -/
theorem c5_fin_count_cx :
    cpOf [tubeComp, finsComp] = 1039 / 99 ∧
    specCenterOfPressure 3 [tubeComp, finsComp] = 261 / 25 ∧
    ((1039 / 99 : ℝ) ≠ 261 / 25) := by
  refine ⟨?_, ?_, by norm_num⟩
  · norm_num [cpOf, cpWeight, cpPosition, tubeComp, finsComp]
  · norm_num [specCenterOfPressure, specCpWeight, specCpPosition, tubeComp, finsComp]

/-- C5 (amended): whenever some component carries positive aerodynamic
weight, the stability view's center of pressure equals the spec's per-type
weight/position table with the fin count fixed at 4 — the hardcoded value
the source uses in place of a per-component fin count. -/
theorem c5_cp_matches_table_with_four_fins (components : List RocketComponent)
    (h : 0 < (components.map cpWeight).sum) :
    cpOf components = specCenterOfPressure 4 components := by
  have hw : ∀ c ∈ components, cpWeight c = specCpWeight 4 c := fun c _ => by
    cases hc : c.type <;> simp [cpWeight, specCpWeight, hc]
  have hn : ∀ c ∈ components, cpPosition c * cpWeight c = specCpPosition c * specCpWeight 4 c :=
    fun c hc => by
      rw [hw c hc]
      cases ht : c.type <;> simp [cpPosition, specCpPosition, ht]
  have hm : components.map cpWeight = components.map (specCpWeight 4) :=
    List.map_congr_left hw
  have hm2 : components.map (fun c => cpPosition c * cpWeight c)
      = components.map (fun c => specCpPosition c * specCpWeight 4 c) :=
    List.map_congr_left hn
  simp only [cpOf, specCenterOfPressure, ← hm, ← hm2]
  rw [if_pos h, if_pos h]

/-- C5 witness: the amended table equality applied to the body tube plus fin
set, whose weight sum 33 is positive. -/
theorem c5_cp_matches_table_witness :
    0 < ([tubeComp, finsComp].map cpWeight).sum ∧
    cpOf [tubeComp, finsComp] = specCenterOfPressure 4 [tubeComp, finsComp] := by
  have h : 0 < ([tubeComp, finsComp].map cpWeight).sum := by
    norm_num [cpWeight, tubeComp, finsComp]
  exact ⟨h, c5_cp_matches_table_with_four_fins _ h⟩

/-- C6: not every division in the core guards its denominator.  The physics
engine's static margin with `diameter = 0` divides by zero (JavaScript
`Infinity`/`NaN`, modelled `none`), and fin effectiveness on a zero-length
rocket evaluates `0 / 0` (`NaN`, modelled `none`); only the stability view's
static margin is guarded (`rocketDiameter || 1`), returning the finite 1. -/
theorem c6_unguarded_divisions :
    calculateStabilityMarginChecked 0 1 0 = none ∧
    finEffectivenessChecked [zeroFins] = none ∧
    staticMarginChecked 0 1 0 = some 1 := by
  refine ⟨by simp [calculateStabilityMarginChecked, jsDiv], ?_,
    by norm_num [staticMarginChecked, jsDiv]⟩
  norm_num [finEffectivenessChecked, jsDiv, rocketLengthOf, listMax, listMin, zeroFins]

/-- C7 counterexample: for the Motor-shape-conforming `sparseMotor` and step
time 3, the thrust used at `time == burnTime` is 5, not 0 — the
nearest-sample lookup finds the first curve point within `deltaTime / 2`,
which here is the ignition sample `(0, 5)`. -/
theorem c7_burnout_thrust_cx :
    thrustAt (some sparseMotor) 1 3 = 5 ∧ ((5 : ℝ) ≠ 0) := by
  refine ⟨?_, by norm_num⟩
  norm_num [thrustAt, sparseMotor, findThrust, abs_of_nonpos]

/-- C7 (amended): the instantaneous thrust used by the flight step is 0
whenever `time > motor.burnTime`; within the burn it is the first
thrust-curve sample within `deltaTime / 2` of the current time (0 when none
is that close), a deterministic lookup that need not be 0 at
`time == burnTime`. -/
theorem c7_thrust_zero_after_burnout (m : MotorData) (t dt : ℝ) (h : m.burnTime < t) :
    thrustAt (some m) t dt = 0 := by
  simp [thrustAt, not_le.mpr h]

/-- C7 witness: past burnout (time 2 against burn time 1) the thrust is 0. -/
theorem c7_thrust_zero_after_burnout_witness :
    sparseMotor.burnTime < 2 ∧ thrustAt (some sparseMotor) 2 3 = 0 :=
  ⟨by norm_num [sparseMotor], c7_thrust_zero_after_burnout sparseMotor 2 3
    (by norm_num [sparseMotor])⟩

/-- C8 (amended): in every flight step with positive mass, nonnegative drag
coefficient and reference area, and nonnegative computed air density, the
drag acceleration opposes the motion: nonpositive for upward velocity,
nonnegative for downward velocity, and zero at rest. -/
theorem c8_drag_opposes_motion (s : FlightDataPoint) (rp : RocketPhysics)
    (lc : LaunchConditions) (hm : 0 < s.mass) (hcd : 0 ≤ rp.dragCoefficient)
    (har : 0 ≤ rp.referenceArea) (hd : 0 ≤ stepAirDensity s lc) :
    (0 < s.velocity → stepDragAcceleration s rp lc ≤ 0) ∧
    (s.velocity < 0 → 0 ≤ stepDragAcceleration s rp lc) ∧
    (s.velocity = 0 → stepDragAcceleration s rp lc = 0) := by
  have hdf : 0 ≤ stepDragForce s rp lc := by
    unfold stepDragForce calculateDragForce
    have h05 : (0 : ℝ) ≤ 0.5 := by norm_num
    exact mul_nonneg (mul_nonneg (mul_nonneg (mul_nonneg (mul_nonneg h05 hd)
      (abs_nonneg _)) (abs_nonneg _)) hcd) har
  refine ⟨fun hv => ?_, fun hv => ?_, fun hv => ?_⟩
  · unfold stepDragAcceleration
    rw [if_pos hv]
    exact div_nonpos_iff.mpr (Or.inr ⟨neg_nonpos.mpr hdf, hm.le⟩)
  · unfold stepDragAcceleration
    rw [if_neg (not_lt.mpr hv.le)]
    exact div_nonneg hdf hm.le
  · have hz : stepDragForce s rp lc = 0 := by
      unfold stepDragForce calculateDragForce
      rw [hv]
      simp
    unfold stepDragAcceleration
    rw [if_neg (by rw [hv]; exact lt_irrefl 0), hz, zero_div]

/-- C8 counterexample: with an unvalidated ground temperature below absolute
zero the computed air density is negative, and the drag acceleration of an
ascending state (velocity 10, mass 1) is strictly positive — drag pushes in
the direction of travel, refuting the unconditional claim. -/
theorem c8_drag_assists_cx :
    0 < fastState.velocity ∧ 0 < fastState.mass ∧
    0 < stepDragAcceleration fastState dragPhysics coldConditions := by
  refine ⟨by norm_num [fastState], by norm_num [fastState], ?_⟩
  have hd : stepAirDensity fastState coldConditions = 101325 / (287 * (-300 + 273.15)) := by
    unfold stepAirDensity calculateAirDensity
    norm_num [fastState, coldConditions, temperatureLapseRate, gasConstant, Real.one_rpow]
  unfold stepDragAcceleration stepDragForce calculateDragForce
  rw [if_pos (by norm_num [fastState] : (0 : ℝ) < fastState.velocity)]
  rw [hd]
  norm_num [fastState, dragPhysics]

/-- C8 witness: at sea level and 15 degrees the computed air density is
nonnegative and the drag acceleration of the ascending state is
nonpositive. -/
theorem c8_drag_opposes_motion_witness :
    0 ≤ stepAirDensity fastState seaLevel ∧
    stepDragAcceleration fastState dragPhysics seaLevel ≤ 0 := by
  have hd : stepAirDensity fastState seaLevel = 101325 / (287 * (15 + 273.15)) := by
    unfold stepAirDensity calculateAirDensity
    norm_num [fastState, seaLevel, temperatureLapseRate, gasConstant, Real.one_rpow]
  have h0 : 0 ≤ stepAirDensity fastState seaLevel := by rw [hd]; norm_num
  exact ⟨h0, (c8_drag_opposes_motion fastState dragPhysics seaLevel
    (by norm_num [fastState]) (by norm_num [dragPhysics]) (by norm_num [dragPhysics]) h0).1
    (by norm_num [fastState])⟩

/-- C2 counterexample: the drag-free ballistic run ends at a ground exit
taken by the loop guard, not the landing branch — its last sample has
altitude 0 but velocity -9.81, so `|velocity| < 1` fails and no forced
touchdown sample is appended. -/
theorem c2_touchdown_cx :
    (runFullSimulation ballisticPhysics emptyMotor seaLevel 2 1).getLast? = some ballisticS1 ∧
    ballisticS1.altitude = 0 ∧ ¬(|ballisticS1.velocity| < 1) := by
  refine ⟨by rw [ballistic_run]; rfl, rfl, ?_⟩
  norm_num [ballisticS1, abs_of_nonpos]

/-- C2 (amended): for every run with a positive time step, the last sample
either is the forced touchdown sample (altitude 0, velocity 0 — appended
exactly when a step lands with `altitude ≤ 0`, `|velocity| < 1`, `time > 1`),
or records a ground exit with altitude 0, nonpositive velocity (possibly of
magnitude ≥ 1) and time ≥ 1 s, or records a timeout with time ≥ maxTime
(altitude possibly positive). -/
theorem c2_run_end_disjunction (rp : RocketPhysics) (md : MotorData) (lc : LaunchConditions)
    (mt dt : ℝ) (hdt : 0 < dt) (x : FlightDataPoint)
    (hx : (runFullSimulation rp md lc mt dt).getLast? = some x) :
    (x.altitude = 0 ∧ x.velocity = 0)
      ∨ (x.altitude = 0 ∧ x.velocity ≤ 0 ∧ 1 ≤ x.time)
      ∨ mt ≤ x.time := by
  refine runSimAux_getLast rp md lc mt dt hdt (simFuel mt dt) (initialState rp) ?_ ?_ x hx
  · simp [initialState]
  · simp [initialState, simFuel]

/-- C2 witness: the amended disjunction instantiated on the ballistic run,
whose last sample realizes the ground-exit case. -/
theorem c2_run_end_disjunction_witness :
    ((0 : ℝ) < 1 ∧
      (runFullSimulation ballisticPhysics emptyMotor seaLevel 2 1).getLast? = some ballisticS1) ∧
    ((ballisticS1.altitude = 0 ∧ ballisticS1.velocity = 0)
      ∨ (ballisticS1.altitude = 0 ∧ ballisticS1.velocity ≤ 0 ∧ 1 ≤ ballisticS1.time)
      ∨ (2 : ℝ) ≤ ballisticS1.time) := by
  have hlast : (runFullSimulation ballisticPhysics emptyMotor seaLevel 2 1).getLast?
      = some ballisticS1 := by
    rw [ballistic_run]; rfl
  exact ⟨⟨by norm_num, hlast⟩,
    c2_run_end_disjunction ballisticPhysics emptyMotor seaLevel 2 1 (by norm_num) ballisticS1 hlast⟩

/-- C3: the sampled mass drops below the rocket's dry mass.  With total mass
1 kg, dry mass 0.8 kg and a motor burning 0.2 kg over 1 s, the steps starting
at times 0 and 1 both satisfy `time ≤ burnTime` and both deplete
0.2 kg, so the third sample's mass is 0.6 kg < dryMass = 0.8 kg — the step
has no dry-mass clamp. -/
theorem c3_mass_below_dryMass :
    (0.6 : ℝ) ∈ (runFullSimulation burnPhysics burnMotor seaLevel 3 1).map (fun s => s.mass) ∧
    burnPhysics.dryMass = 0.8 ∧ ((0.6 : ℝ) < 0.8) := by
  refine ⟨?_, rfl, by norm_num⟩
  have hm : (simulateFlightStep burnS1 burnPhysics (some burnMotor) seaLevel 1).mass = 0.6 := by
    simp only [simulateFlightStep, thrustAt, findThrust, burnS1, burnMotor, burnPhysics, seaLevel]
    norm_num
  rw [burn_run_start]
  simp only [List.map_cons, hm]
  simp [List.mem_cons]

/-- C9: for every positive time step the simulation terminates with at most
`⌈maxTime / timeStep⌉₊ + 2` samples: the initial sample, at most
`⌈maxTime / timeStep⌉₊` loop passes (the guard needs `time < maxTime` and
each pass advances time by `timeStep`), and at most one forced touchdown
sample. -/
theorem c9_run_length_bounded (rp : RocketPhysics) (md : MotorData) (lc : LaunchConditions)
    (mt dt : ℝ) (hdt : 0 < dt) :
    (runFullSimulation rp md lc mt dt).length ≤ ⌈mt / dt⌉₊ + 2 := by
  have h := runSimAux_length_le rp md lc mt dt hdt (simFuel mt dt) (initialState rp)
  have ht : (initialState rp).time = 0 := rfl
  rw [ht, sub_zero] at h
  rw [runFullSimulation, List.length_cons]
  omega

/-- C9 witness: the bound instantiated on the ballistic run (2 samples
against the bound ⌈2/1⌉₊ + 2 = 4). -/
theorem c9_run_length_bounded_witness :
    ((0 : ℝ) < 1) ∧
    (runFullSimulation ballisticPhysics emptyMotor seaLevel 2 1).length ≤ ⌈(2 : ℝ) / 1⌉₊ + 2 :=
  ⟨by norm_num, c9_run_length_bounded ballisticPhysics emptyMotor seaLevel 2 1 (by norm_num)⟩

/-- C10: for every run with a positive time step, consecutive sample times
rise by exactly the time step, except that the final sample may repeat the
previous sample's time — and then it is the forced touchdown sample
(altitude 0, velocity 0); consequently the time fields are non-decreasing. -/
theorem c10_sample_times (rp : RocketPhysics) (md : MotorData) (lc : LaunchConditions)
    (mt dt : ℝ) (hdt : 0 < dt) :
    timeChain dt (runFullSimulation rp md lc mt dt) ∧
    ∀ i, (h : i + 1 < (runFullSimulation rp md lc mt dt).length) →
      (runFullSimulation rp md lc mt dt)[i].time
        ≤ (runFullSimulation rp md lc mt dt)[i + 1].time := by
  have hch : timeChain dt (runFullSimulation rp md lc mt dt) := by
    rw [runFullSimulation]
    exact runSimAux_timeChain rp md lc mt dt (simFuel mt dt) (initialState rp)
  exact ⟨hch, fun i h => timeChain_le dt hdt _ hch i h⟩

/-- C10 witness: the time chain instantiated on the ballistic run, whose two
samples are 1 s apart. -/
theorem c10_sample_times_witness :
    ((0 : ℝ) < 1) ∧ timeChain 1 (runFullSimulation ballisticPhysics emptyMotor seaLevel 2 1) ∧
    ballisticS1.time = (initialState ballisticPhysics).time + 1 :=
  ⟨by norm_num, (c10_sample_times ballisticPhysics emptyMotor seaLevel 2 1 (by norm_num)).1,
    by norm_num [ballisticS1, initialState]⟩
